import Mathlib

/- Verification development for the `disaster` repository.

   The source under scrutiny is the proxy/UI layer in
   src/contact/InteractiveAIChat.vue, which contains two programs:
   an Express server (routes /api/register, /api/login, /api/chat,
   /api/langgraph/health) and a Vue chat component (sendMessage).
   The LangGraph core (ModelGateway etc.) is not present under src/,
   so its `invoke_many` contract is modelled from the specification.

   JavaScript values are embedded shallowly: a possibly-absent string
   field becomes `Option String` (with `none` for `undefined`), JS
   truthiness of a string is "present and non-empty", and the opaque
   effects (database, bcrypt, fetch) become explicit function
   parameters or outcome values passed to the handler. -/

namespace Disaster

/-- JS `a || b` for a possibly-absent string `a` (falsy = absent or empty). -/
def jsOr (a : Option String) (b : String) : String :=
  match a with
  | none => b
  | some s => if s = "" then b else s

/-- JS truthiness of a possibly-absent string field. -/
def jsTruthy : Option String → Bool
  | none => false
  | some s => !(s == "")

/-- JS `String.prototype.trim`, modelled over the character list
    (ASCII whitespace suffices for the strings concerned). -/
def isWsChar (c : Char) : Bool :=
  c = ' ' || c = '\t' || c = '\n' || c = '\r'

/-- JS `s.trim()`. -/
def jsTrim (s : String) : String :=
  ⟨((s.data.dropWhile isWsChar).reverse.dropWhile isWsChar).reverse⟩

/- ----------------------------------------------------------------
   Authentication endpoints (src/contact/InteractiveAIChat.vue,
   server part, lines 279-342).
   ---------------------------------------------------------------- -/

/-- A row of the `users` table as read by the login handler. -/
structure DbUser where
  id : Nat
  username : String
  password_hash : String
  deriving DecidableEq

/-- Response of /api/register and /api/login: HTTP status, the
    `message` field, and the `user` object ((id, username)) when present.
    The response type carries exactly what the handlers put in the body;
    in particular no password-hash field exists in a response. -/
structure AuthResponse where
  status : Nat
  message : String
  user : Option (Nat × String)
  deriving DecidableEq

/-- Outcome of the INSERT issued by /api/register: the new row's id,
    or a thrown error with its optional `code` (pg sets '23505' on
    unique violations). -/
inductive InsertOutcome where
  | ok (id : Nat)
  | err (code : Option String)
  deriving DecidableEq

/-- The /api/register handler (lines 279-307). `hash` stands for
    bcrypt.genSalt + bcrypt.hash (salt folded in); `insert` stands for the
    INSERT, receiving (username, passwordHash). Besides the response, the
    list of insert attempts actually issued is returned, so that "no
    database write" is expressible. -/
def handleRegister (username password : Option String)
    (hash : String → String) (insert : String → String → InsertOutcome) :
    AuthResponse × List (String × String) :=
  match username, password with
  | some u, some p =>
    if u = "" ∨ p = "" then (⟨400, "用户名和密码不能为空", none⟩, [])
    else
      let h := hash p
      match insert u h with
      | .ok id => (⟨201, "注册成功", some (id, u)⟩, [(u, h)])
      | .err code =>
        if code = some "23505" then (⟨409, "注册失败：用户名已存在", none⟩, [(u, h)])
        else (⟨500, "服务器错误", none⟩, [(u, h)])
  | _, _ => (⟨400, "用户名和密码不能为空", none⟩, [])

/-- The /api/login handler (lines 309-342). `lookup` is the result of
    SELECT * FROM users WHERE username = $1 (none = zero rows); `cmp` stands
    for bcrypt.compare applied to (password, stored hash). -/
def handleLogin (username password : Option String)
    (lookup : Option DbUser) (cmp : String → String → Bool) : AuthResponse :=
  match username, password with
  | some u, some p =>
    if u = "" ∨ p = "" then ⟨400, "用户名和密码不能为空", none⟩
    else
      match lookup with
      | none => ⟨401, "登录失败：用户名或密码错误", none⟩
      | some user =>
        if cmp p user.password_hash then ⟨200, "登录成功", some (user.id, user.username)⟩
        else ⟨401, "登录失败：用户名或密码错误", none⟩
  | _, _ => ⟨400, "用户名和密码不能为空", none⟩

/- ----------------------------------------------------------------
   The /api/chat proxy handler (lines 348-445) and its data.
   ---------------------------------------------------------------- -/

/-- A dataset entry as sent by the frontend: `{ name, source }`. -/
structure Dataset where
  name : String
  source : String
  deriving DecidableEq

/-- The `context.model` object of a chat request. -/
structure ModelInfo where
  name : Option String
  type : Option String
  deriving DecidableEq

/-- The `context` object of a chat request body. -/
structure ChatContext where
  region : Option String
  model : Option ModelInfo
  datasets : Option (List Dataset)
  deriving DecidableEq

/-- A /api/chat request body `{ question, context }`; either field may be
    absent. -/
structure ChatRequest where
  question : Option String
  context : Option ChatContext
  deriving DecidableEq

/-- `model_info` of the input_data forwarded to LangGraph:
    `{ name: context.model.name, type: context.model.type || 'unknown' }`. -/
structure ModelInfoOut where
  name : Option String
  type : String
  deriving DecidableEq

/-- The `input_data` object built by the handler (lines 359-372). -/
structure InputData where
  user_question : String
  region : String
  model_info : Option ModelInfoOut
  datasets : List Dataset
  emergency_type : String
  severity_level : String
  timestamp : String
  deriving DecidableEq

/-- Construction of input_data from a non-empty question, the context
    object, and `new Date().toISOString()` (passed in as `ts`). -/
def mkInputData (question : String) (ctx : ChatContext) (ts : String) : InputData :=
  { user_question := question
    region := jsOr ctx.region "未指定"
    model_info :=
      match ctx.model with
      | some m => some ⟨m.name, jsOr m.type "unknown"⟩
      | none => none
    datasets :=
      match ctx.datasets with
      | some ds => if ds.length > 0 then ds.map (fun d => ⟨d.name, d.source⟩) else []
      | none => []
    emergency_type := "general_inquiry"
    severity_level := "low"
    timestamp := ts }

/-- An alert object of final_report.alerts, with the string JSON.stringify
    would produce for it kept as an opaque field. -/
structure Alert where
  message : Option String
  description : Option String
  asJson : String
  deriving DecidableEq

/-- A recommendation object of final_report.recommendations. -/
structure Recommendation where
  action : Option String
  description : Option String
  asJson : String
  deriving DecidableEq

/-- An entry of final_report.processing_log (only `message` is read). -/
structure LogEntry where
  message : Option String
  deriving DecidableEq

/-- The final_report object; only the four fields the handler reads are
    modelled (coordination_results and damage_assessment are never read). -/
structure FinalReport where
  alerts : Option (List Alert)
  recommendations : Option (List Recommendation)
  processing_log : Option (List LogEntry)
  summary : Option String
  deriving DecidableEq

/-- The parsed JSON body of a LangGraph response. -/
structure LangGraphResult where
  final_report : Option FinalReport
  deriving DecidableEq

/-- JS `Array.prototype.join(sep)`. -/
def joinSep (sep : String) : List String → String
  | [] => ""
  | [s] => s
  | s :: rest => s ++ sep ++ joinSep sep rest

/-- One line of the alerts section:
    `- ${alert.message || alert.description || JSON.stringify(alert)}`. -/
def alertLine (a : Alert) : String :=
  "- " ++ jsOr a.message (jsOr a.description a.asJson)

/-- One line of the recommendations section:
    `- ${rec.action || rec.description || JSON.stringify(rec)}`. -/
def recLine (r : Recommendation) : String :=
  "- " ++ jsOr r.action (jsOr r.description r.asJson)

/-- The alerts part pushed onto replyParts (lines 409-411). -/
def alertsPart (alerts : Option (List Alert)) : List String :=
  match alerts with
  | some as => if as.length > 0 then ["**警报信息:**\n" ++ joinSep "\n" (as.map alertLine)] else []
  | none => []

/-- The recommendations part pushed onto replyParts (lines 413-415). -/
def recsPart (recs : Option (List Recommendation)) : List String :=
  match recs with
  | some rs => if rs.length > 0 then ["**建议措施:**\n" ++ joinSep "\n" (rs.map recLine)] else []
  | none => []

/-- The last-log part pushed onto replyParts (lines 417-422):
    the message of processing_log's last entry, when truthy. -/
def logPart (lg : Option (List LogEntry)) : List String :=
  match lg with
  | some ls =>
    if ls.length > 0 then
      match ls.getLast? with
      | some lastLog =>
        match lastLog.message with
        | some m => if m ≠ "" then ["**分析结果:** " ++ m] else []
        | none => []
      | none => []
    else []
  | none => []

/-- The summary part pushed onto replyParts (lines 424-426). -/
def summaryPart (summary : Option String) : List String :=
  match summary with
  | some s => if s ≠ "" then ["**总结:** " ++ s] else []
  | none => []

/-- The replyParts array after the four conditional pushes (lines 407-426). -/
def sectionParts (report : FinalReport) : List String :=
  alertsPart report.alerts ++ recsPart report.recommendations
    ++ logPart report.processing_log ++ summaryPart report.summary

/-- Text preceding the quoted question in the no-content fallback (line 430). -/
def noContentPre : String := "基于您的问题\""

/-- Text following the quoted question in the no-content fallback (line 430). -/
def noContentPost : String :=
  "\"，我已经通过应急管理系统进行了分析。系统返回了详细的处理结果，包含了多个方面的信息。如需要更具体的分析，请提供更多背景信息。"

/-- The fallback reply when final_report yields no sections (line 430). -/
def noContentReply (question : String) : String :=
  noContentPre ++ question ++ noContentPost

/-- The reply when the LangGraph response has no final_report (line 435). -/
def noReportReply : String :=
  "抱歉，应急管理系统处理您的请求时出现了问题。请稍后重试或联系系统管理员。"

/-- The reply-extraction of the handler (lines 400-436): final_report to
    aiReply. -/
def buildReply (question : String) (result : LangGraphResult) : String :=
  match result.final_report with
  | some report =>
    let replyParts := sectionParts report
    if replyParts.length = 0 then noContentReply question
    else joinSep "\n\n" replyParts
  | none => noReportReply

/-- Outcome of the fetch to LangGraph as the handler observes it:
    fetch (or body parsing) threw with a message, the response was non-ok
    with the given error text, or an ok JSON body was obtained. -/
inductive UpstreamResult where
  | fetchError (msg : String)
  | httpError (errorText : String)
  | ok (body : LangGraphResult)
  deriving DecidableEq

/-- A /api/chat HTTP response: status plus the `reply` / `message` body
    fields actually set by the handler. -/
structure ChatResponse where
  status : Nat
  reply : Option String
  message : Option String
  deriving DecidableEq

/-- The LangGraph endpoint targeted by /api/chat (line 379). -/
def chatLanggraphUrl : String := "http://10.0.3.4:2024/process_emergency_event"

/-- The endpoint targeted by /api/langgraph/health (line 452). -/
def systemHealthUrl : String := "http://10.0.3.4/system_health"

/-- Prefix of the /api/chat 500 diagnostic (line 443). -/
def chatErrPrefix : String := "与应急管理系统通信时发生错误: "

/-- Message of the TypeError raised by reading `context.region` when the
    request body has no context object (line 361); the exact engine text is
    immaterial, only that the catch turns it into a 500. -/
def noContextTypeError : String := "Cannot read properties of undefined"

/-- The /api/chat handler (lines 348-445). `ts` is the value of
    `new Date().toISOString()`; `up` gives the outcome of the POST to
    LangGraph for the body sent. Returns the HTTP response together with
    the list of (url, input_data) POSTs the handler issued. -/
def handleChat (req : ChatRequest) (ts : String)
    (up : InputData → UpstreamResult) : ChatResponse × List (String × InputData) :=
  match req.question with
  | none => (⟨400, none, some "问题内容不能为空"⟩, [])
  | some q =>
    if q = "" then (⟨400, none, some "问题内容不能为空"⟩, [])
    else
      match req.context with
      | none =>
        -- building input_data reads context.region on undefined: the thrown
        -- TypeError reaches the catch before any fetch is made
        (⟨500, none, some (chatErrPrefix ++ noContextTypeError)⟩, [])
      | some ctx =>
        let d := mkInputData q ctx ts
        match up d with
        | .fetchError m =>
          (⟨500, none, some (chatErrPrefix ++ m)⟩, [(chatLanggraphUrl, d)])
        | .httpError t =>
          (⟨500, none, some (chatErrPrefix ++ ("LangGraph服务调用失败: " ++ t))⟩,
            [(chatLanggraphUrl, d)])
        | .ok body =>
          (⟨200, some (buildReply q body), none⟩, [(chatLanggraphUrl, d)])

/- ----------------------------------------------------------------
   URL anatomy, for comparing the two hard-coded endpoints.
   ---------------------------------------------------------------- -/

/-- Characters before the first occurrence of `stop`. -/
def takeUntil (stop : Char) : List Char → List Char
  | [] => []
  | c :: cs => if c = stop then [] else c :: takeUntil stop cs

/-- The list from the first occurrence of `stop` on (empty if absent). -/
def dropUntil (stop : Char) : List Char → List Char
  | [] => []
  | c :: cs => if c = stop then c :: cs else dropUntil stop cs

/-- host[:port] of an http:// URL. -/
def authorityOf (u : String) : List Char := takeUntil '/' (u.data.drop 7)

/-- Host of an http:// URL. -/
def urlHost (u : String) : String := ⟨takeUntil ':' (authorityOf u)⟩

/-- Decimal value of a digit string. -/
def digitsVal (ds : List Char) : Nat :=
  ds.foldl (fun n c => 10 * n + (c.toNat - 48)) 0

/-- Port of an http:// URL; 80 (the http default) when no port is written. -/
def urlPort (u : String) : Nat :=
  match dropUntil ':' (authorityOf u) with
  | [] => 80
  | _ :: ds => digitsVal ds

/-- Path of an http:// URL. -/
def urlPath (u : String) : String := ⟨dropUntil '/' (u.data.drop 7)⟩

/- ----------------------------------------------------------------
   Claim-side (spec-worded) reconstruction of the reply sections, for
   the refinement claim about reply assembly: an Option-valued section
   per spec sentence, kept separate from the source-derived parts above.
   ---------------------------------------------------------------- -/

/-- The alerts section, present exactly when the alerts list is present and
    non-empty. -/
def alertsSection? (alerts : Option (List Alert)) : Option String :=
  match alerts with
  | some (a :: rest) => some ("**警报信息:**\n" ++ joinSep "\n" ((a :: rest).map alertLine))
  | _ => none

/-- The recommendations section, present exactly when the list is present
    and non-empty. -/
def recsSection? (recs : Option (List Recommendation)) : Option String :=
  match recs with
  | some (r :: rest) => some ("**建议措施:**\n" ++ joinSep "\n" ((r :: rest).map recLine))
  | _ => none

/-- The analysis section: the message of the last processing_log entry,
    present exactly when that message is present and non-empty. -/
def logSection? (lg : Option (List LogEntry)) : Option String :=
  match lg with
  | some ls =>
    match ls.getLast? with
    | some lastLog =>
      match lastLog.message with
      | some m => if m = "" then none else some ("**分析结果:** " ++ m)
      | none => none
    | none => none
  | none => none

/-- The summary section, present exactly when summary is present and
    non-empty. -/
def summarySection? (summary : Option String) : Option String :=
  match summary with
  | some s => if s = "" then none else some ("**总结:** " ++ s)
  | none => none

/-- The sections that yield content, in the claimed fixed order. -/
def specSections (report : FinalReport) : List String :=
  [alertsSection? report.alerts, recsSection? report.recommendations,
    logSection? report.processing_log, summarySection? report.summary].filterMap id

/-- The claimed reply: the content-yielding sections joined by blank lines,
    or the question-mentioning fallback when none yields content. -/
def specReply (question : String) (report : FinalReport) : String :=
  if specSections report = [] then noContentReply question
  else joinSep "\n\n" (specSections report)

/- ----------------------------------------------------------------
   The Vue chat component's sendMessage (lines 60-107 of the .vue file).
   ---------------------------------------------------------------- -/

/-- One entry of the component's messages list. -/
structure Msg where
  sender : String
  text : String
  deriving DecidableEq

/-- The component state sendMessage touches. -/
structure ChatUiState where
  userInput : String
  isTyping : Bool
  messages : List Msg
  deriving DecidableEq

/-- Outcome of the component's fetch('/api/chat') as observed in
    sendMessage: an ok response carrying data.reply, a non-ok response
    carrying errorData.message (possibly absent), or a thrown error. -/
inductive FetchOutcome where
  | ok (reply : String)
  | httpErr (message : Option String)
  | netErr (message : String)
  deriving DecidableEq

/-- The AI error bubble pushed in the catch block (line 102). -/
def chatUiErrText (m : String) : String :=
  "抱歉，我遇到了一些麻烦，暂时无法回答。错误信息: " ++ m

/-- sendMessage as a state transformer: guards on empty (trimmed) input or
    a pending reply; otherwise pushes the user message, clears the input,
    and pushes exactly one AI message whose text depends on the fetch
    outcome; the finally block clears isTyping. -/
def sendMessage (st : ChatUiState) (outcome : FetchOutcome) : ChatUiState :=
  let userMessage := jsTrim st.userInput
  if userMessage = "" ∨ st.isTyping then st
  else
    let aiMsg : Msg :=
      match outcome with
      | .ok r => ⟨"ai", r⟩
      | .httpErr m => ⟨"ai", chatUiErrText (jsOr m "与AI服务通信失败")⟩
      | .netErr m => ⟨"ai", chatUiErrText m⟩
    { userInput := ""
      isTyping := false
      messages := (st.messages ++ [⟨"user", userMessage⟩]) ++ [aiMsg] }

/- ----------------------------------------------------------------
   ModelGateway.invoke_many. The gateway implementation is not part of
   src/ (only the spec and the repository docs describe it), so it is
   modelled from the specification.
   ---------------------------------------------------------------- -/

/-- Modelled from the spec: a gateway request `(backend_id, operation,
    params)`; params kept opaque as a string. The gateway implementation is
    missing from src/. -/
structure ModelRequest where
  backend_id : String
  operation : String
  params : String
  deriving DecidableEq

instance : Inhabited ModelRequest := ⟨⟨"", "", ""⟩⟩

/-- Modelled from the spec: exactly one of a successful payload or a
    failure descriptor (kind + message). -/
inductive InvocationOutcome where
  | payload (value : String)
  | failure (kind : String) (message : String)
  deriving DecidableEq

/-- Modelled from the spec: backend identifier, requested operation, input
    parameters, outcome, wall-clock duration, attempt count. -/
structure ModelInvocationResult where
  backend_id : String
  operation : String
  params : String
  outcome : InvocationOutcome
  duration_ms : Nat
  attempts : Nat
  deriving DecidableEq

/-- Modelled from the spec: concurrent completion of the dispatched tasks.
    `exec` gives each request's eventual result and `sched` is the order in
    which the in-flight tasks complete (a permutation of the request
    indices); the fan-in collects (index, result) pairs in completion
    order. -/
def gatherByCompletion (reqs : List ModelRequest)
    (exec : ModelRequest → ModelInvocationResult) (sched : List Nat) :
    List (Nat × ModelInvocationResult) :=
  sched.map (fun i => (i, exec (reqs.getD i default)))

/-- Modelled from the spec: invoke_many dispatches all requests
    concurrently (completed per `sched`) and reorders the collected results
    positionally by originating request index. The gateway implementation
    is missing from src/. -/
def invoke_many (reqs : List ModelRequest)
    (exec : ModelRequest → ModelInvocationResult) (sched : List Nat) :
    List ModelInvocationResult :=
  (List.range reqs.length).map (fun j =>
    match (gatherByCompletion reqs exec sched).lookup j with
    | some r => r
    | none => exec (reqs.getD j default))

/- ----------------------------------------------------------------
   Helper lemmas.
   ---------------------------------------------------------------- -/

theorem str_append_ne (s t : String) (h : s ≠ "") : s ++ t ≠ "" := by
  intro hc
  apply h
  apply String.ext
  have hd : (s ++ t).data = ("" : String).data := congrArg String.data hc
  rw [String.data_append] at hd
  have := (List.append_eq_nil.mp hd).1
  simpa using this

theorem joinSep_ne_empty (sep : String) (l : List String) (hne : l ≠ [])
    (h : ∀ x ∈ l, x ≠ "") : joinSep sep l ≠ "" := by
  match l with
  | [] => exact absurd rfl hne
  | [s] =>
    show s ≠ ""
    exact h s (by simp)
  | s :: t :: rest =>
    show s ++ sep ++ joinSep sep (t :: rest) ≠ ""
    exact str_append_ne _ _ (str_append_ne _ _ (h s (by simp)))

theorem alertsPart_all_ne (alerts : Option (List Alert)) :
    ∀ x ∈ alertsPart alerts, x ≠ "" := by
  intro x hx
  cases alerts with
  | none => simp [alertsPart] at hx
  | some as =>
    simp only [alertsPart] at hx
    split at hx
    · simp at hx
      subst hx
      exact str_append_ne _ _ (by decide)
    · simp at hx

theorem recsPart_all_ne (recs : Option (List Recommendation)) :
    ∀ x ∈ recsPart recs, x ≠ "" := by
  intro x hx
  cases recs with
  | none => simp [recsPart] at hx
  | some rs =>
    simp only [recsPart] at hx
    split at hx
    · simp at hx
      subst hx
      exact str_append_ne _ _ (by decide)
    · simp at hx

theorem logPart_all_ne (lg : Option (List LogEntry)) :
    ∀ x ∈ logPart lg, x ≠ "" := by
  intro x hx
  unfold logPart at hx
  repeat' split at hx
  all_goals simp at hx
  all_goals (subst hx; exact str_append_ne _ _ (by decide))

theorem summaryPart_all_ne (summary : Option String) :
    ∀ x ∈ summaryPart summary, x ≠ "" := by
  intro x hx
  cases summary with
  | none => simp [summaryPart] at hx
  | some s =>
    simp only [summaryPart] at hx
    split at hx
    · simp at hx
      subst hx
      exact str_append_ne _ _ (by decide)
    · simp at hx

theorem sectionParts_all_ne (report : FinalReport) :
    ∀ x ∈ sectionParts report, x ≠ "" := by
  intro x hx
  unfold sectionParts at hx
  rcases List.mem_append.mp hx with hx | hx
  · rcases List.mem_append.mp hx with hx | hx
    · rcases List.mem_append.mp hx with hx | hx
      · exact alertsPart_all_ne _ x hx
      · exact recsPart_all_ne _ x hx
    · exact logPart_all_ne _ x hx
  · exact summaryPart_all_ne _ x hx

theorem noContentReply_ne_empty (q : String) : noContentReply q ≠ "" := by
  unfold noContentReply
  exact str_append_ne _ _ (str_append_ne _ _ (by decide))

theorem buildReply_ne_empty (q : String) (res : LangGraphResult) :
    buildReply q res ≠ "" := by
  obtain ⟨fr⟩ := res
  cases fr with
  | none =>
    show noReportReply ≠ ""
    decide
  | some report =>
    show (if (sectionParts report).length = 0 then noContentReply q
      else joinSep "\n\n" (sectionParts report)) ≠ ""
    by_cases h : (sectionParts report).length = 0
    · rw [if_pos h]
      exact noContentReply_ne_empty q
    · rw [if_neg h]
      exact joinSep_ne_empty _ _ (fun hnil => h (by rw [hnil]; rfl))
        (sectionParts_all_ne report)

theorem alertsPart_eq (alerts : Option (List Alert)) :
    alertsPart alerts = (alertsSection? alerts).toList := by
  cases alerts with
  | none => rfl
  | some as =>
    cases as with
    | nil => rfl
    | cons a rest => simp [alertsPart, alertsSection?]

theorem recsPart_eq (recs : Option (List Recommendation)) :
    recsPart recs = (recsSection? recs).toList := by
  cases recs with
  | none => rfl
  | some rs =>
    cases rs with
    | nil => rfl
    | cons r rest => simp [recsPart, recsSection?]

theorem logPart_eq (lg : Option (List LogEntry)) :
    logPart lg = (logSection? lg).toList := by
  cases lg with
  | none => rfl
  | some ls =>
    cases ls with
    | nil => rfl
    | cons e es =>
      simp only [logPart, logSection?, List.length_cons]
      rw [if_pos (Nat.succ_pos _)]
      cases hlast : (e :: es).getLast? with
      | none => simp [hlast]
      | some lastLog =>
        simp only [hlast]
        cases hm : lastLog.message with
        | none => simp
        | some m => by_cases hme : m = "" <;> simp [hme]

theorem summaryPart_eq (summary : Option String) :
    summaryPart summary = (summarySection? summary).toList := by
  cases summary with
  | none => rfl
  | some s =>
    simp only [summaryPart, summarySection?]
    by_cases hse : s = "" <;> simp [hse]

theorem sectionParts_eq_specSections (report : FinalReport) :
    sectionParts report = specSections report := by
  unfold sectionParts specSections
  rw [alertsPart_eq, recsPart_eq, logPart_eq, summaryPart_eq]
  cases alertsSection? report.alerts <;> cases recsSection? report.recommendations <;>
    cases logSection? report.processing_log <;>
    cases summarySection? report.summary <;> simp

theorem lookup_map_self {β : Type} (f : Nat → β) (sched : List Nat) (j : Nat)
    (h : j ∈ sched) :
    (sched.map (fun i => (i, f i))).lookup j = some (f j) := by
  induction sched with
  | nil => cases h
  | cons a as ih =>
    simp only [List.map_cons, List.lookup]
    by_cases hja : j = a
    · subst hja
      simp
    · have hm : j ∈ as := by
        cases List.mem_cons.mp h with
        | inl heq => exact absurd heq hja
        | inr hmem => exact hmem
      have hbeq : (j == a) = false := beq_false_of_ne hja
      rw [hbeq]
      exact ih hm

theorem map_eq_range_map (reqs : List ModelRequest)
    (exec : ModelRequest → ModelInvocationResult) :
    reqs.map exec
      = (List.range reqs.length).map (fun j => exec (reqs.getD j default)) := by
  induction reqs with
  | nil => rfl
  | cons r rs ih =>
    simp only [List.map_cons, List.length_cons, List.range_succ_eq_map,
      List.map_map]
    refine congrArg₂ List.cons rfl ?_
    rw [ih]
    rfl

/- ----------------------------------------------------------------
   Claim theorems.
   ---------------------------------------------------------------- -/

/-- C1 counterexample: a /api/chat request whose body has the non-empty
    question 你好 but no context object makes the handler POST nothing to
    LangGraph (reading context.region throws first) and answer 500, so the
    claim "every request with a non-empty question produces exactly one
    POST" is false. -/
theorem chat_no_context_counterexample :
    ("你好" : String) ≠ ""
    ∧ (handleChat ⟨some "你好", none⟩ "T" (fun _ => .ok ⟨none⟩)).2 = []
    ∧ (handleChat ⟨some "你好", none⟩ "T" (fun _ => .ok ⟨none⟩)).1.status = 500 := by
  decide

/-- C1 (amended): for every /api/chat request whose body contains a
    non-empty question and a context object, the handler issues exactly one
    POST, addressed to the /process_emergency_event path, whose input_data
    carries the question as user_question, the constant emergency_type
    general_inquiry, the constant severity_level low, the current
    timestamp, and the context's region (a default marker when absent or
    empty); model_info and datasets fields are likewise present in the
    body. -/
theorem chat_posts_single_input_data (q : String) (ctx : ChatContext) (ts : String)
    (up : InputData → UpstreamResult) (hq : q ≠ "") :
    (handleChat ⟨some q, some ctx⟩ ts up).2 = [(chatLanggraphUrl, mkInputData q ctx ts)]
    ∧ urlPath chatLanggraphUrl = "/process_emergency_event"
    ∧ (mkInputData q ctx ts).user_question = q
    ∧ (mkInputData q ctx ts).emergency_type = "general_inquiry"
    ∧ (mkInputData q ctx ts).severity_level = "low"
    ∧ (mkInputData q ctx ts).timestamp = ts
    ∧ (ctx.region = none → (mkInputData q ctx ts).region = "未指定")
    ∧ (∀ s, ctx.region = some s → s ≠ "" → (mkInputData q ctx ts).region = s) := by
  refine ⟨?_, by decide, rfl, rfl, rfl, rfl, ?_, ?_⟩
  · show (handleChat ⟨some q, some ctx⟩ ts up).2 = _
    simp only [handleChat]
    rw [if_neg hq]
    cases up (mkInputData q ctx ts) <;> rfl
  · intro h
    simp [mkInputData, jsOr, h]
  · intro s h hs
    simp [mkInputData, jsOr, h, hs]

/-- C1 witness: a concrete request with question 问题 and an (empty-fielded)
    context object yields exactly one POST carrying its input_data. -/
theorem chat_posts_single_input_data_witness :
    (handleChat ⟨some "问题", some ⟨none, none, none⟩⟩ "T" (fun _ => .ok ⟨none⟩)).2
      = [(chatLanggraphUrl, mkInputData "问题" ⟨none, none, none⟩ "T")] :=
  (chat_posts_single_input_data "问题" ⟨none, none, none⟩ "T" (fun _ => .ok ⟨none⟩)
    (by decide)).1

/-- C3: a /api/chat request with a missing or empty question is answered
    400 with the validation message, and no POST to LangGraph is issued. -/
theorem chat_empty_question_rejected (req : ChatRequest) (ts : String)
    (up : InputData → UpstreamResult)
    (hq : req.question = none ∨ req.question = some "") :
    handleChat req ts up = (⟨400, none, some "问题内容不能为空"⟩, []) := by
  obtain ⟨q?, c?⟩ := req
  rcases hq with h | h <;> (simp only at h; subst h; simp [handleChat])

/-- C3 witness: the request with no question at all is rejected with 400
    and produces no POST. -/
theorem chat_empty_question_rejected_witness :
    handleChat ⟨none, none⟩ "T" (fun _ => .ok ⟨none⟩)
      = (⟨400, none, some "问题内容不能为空"⟩, []) :=
  chat_empty_question_rejected ⟨none, none⟩ "T" (fun _ => .ok ⟨none⟩) (Or.inl rfl)

/-- C5: the two hard-coded core URLs share the host 10.0.3.4 but NOT the
    port — /api/chat posts to port 2024 while /api/langgraph/health fetches
    the portless URL, i.e. default port 80. (The repository's own server
    guide places both /process_emergency_event and /system_health on the
    same server at port 2024, so the health URL's missing port is a slip in
    the code.) -/
theorem chat_health_url_port_mismatch :
    urlHost chatLanggraphUrl = urlHost systemHealthUrl
    ∧ urlPort chatLanggraphUrl = 2024
    ∧ urlPort systemHealthUrl = 80
    ∧ urlPort chatLanggraphUrl ≠ urlPort systemHealthUrl := by
  decide

/-- C7: the reply of /api/chat is a function of the question and the
    upstream response body only — for a fixed question and fixed ok body,
    the reply is identical across executions, whatever the timestamp and
    context (the only other inputs of the computation) were. -/
theorem chat_reply_extraction_deterministic (q : String) (ctx₁ ctx₂ : ChatContext)
    (t₁ t₂ : String) (body : LangGraphResult) :
    (handleChat ⟨some q, some ctx₁⟩ t₁ (fun _ => .ok body)).1.reply
      = (handleChat ⟨some q, some ctx₂⟩ t₂ (fun _ => .ok body)).1.reply := by
  by_cases hq : q = "" <;> simp [handleChat, hq]

/-- C2: for a /api/chat request with a non-empty question, an ok upstream
    JSON response yields HTTP 200 with a present, non-empty reply string;
    the status is 500 exactly when the processing did not reach an ok
    upstream response (fetch failed, non-ok upstream, or the handler's try
    block threw before the call), and every 500 carries a non-empty
    diagnostic message. -/
theorem chat_response_partition (q : String) (ctx? : Option ChatContext) (ts : String)
    (up : InputData → UpstreamResult) (hq : q ≠ "") :
    ((∃ ctx body, ctx? = some ctx ∧ up (mkInputData q ctx ts) = .ok body) →
      ∃ s, (handleChat ⟨some q, ctx?⟩ ts up).1 = ⟨200, some s, none⟩ ∧ s ≠ "")
    ∧ ((handleChat ⟨some q, ctx?⟩ ts up).1.status = 500 ↔
      ¬ ∃ ctx body, ctx? = some ctx ∧ up (mkInputData q ctx ts) = .ok body)
    ∧ ((handleChat ⟨some q, ctx?⟩ ts up).1.status = 500 →
      ∃ m, (handleChat ⟨some q, ctx?⟩ ts up).1.message = some m ∧ m ≠ "") := by
  cases ctx? with
  | none =>
    have hred : handleChat ⟨some q, none⟩ ts up
        = (⟨500, none, some (chatErrPrefix ++ noContextTypeError)⟩, []) := by
      simp only [handleChat]
      rw [if_neg hq]
    refine ⟨?_, ?_, ?_⟩
    · rintro ⟨ctx, body, hctx, -⟩
      cases hctx
    · rw [hred]
      simp
    · intro _
      rw [hred]
      exact ⟨_, rfl, str_append_ne _ _ (by decide)⟩
  | some ctx =>
    have hred : handleChat ⟨some q, some ctx⟩ ts up
        = (match up (mkInputData q ctx ts) with
          | .fetchError m =>
            (⟨500, none, some (chatErrPrefix ++ m)⟩,
              [(chatLanggraphUrl, mkInputData q ctx ts)])
          | .httpError t =>
            (⟨500, none, some (chatErrPrefix ++ ("LangGraph服务调用失败: " ++ t))⟩,
              [(chatLanggraphUrl, mkInputData q ctx ts)])
          | .ok body =>
            (⟨200, some (buildReply q body), none⟩,
              [(chatLanggraphUrl, mkInputData q ctx ts)])) := by
      simp only [handleChat]
      rw [if_neg hq]
    cases hup : up (mkInputData q ctx ts) with
    | fetchError m =>
      rw [hred, hup]
      refine ⟨?_, ?_, ?_⟩
      · rintro ⟨ctx', body, hctx, hok⟩
        cases hctx
        rw [hup] at hok
        cases hok
      · constructor
        · rintro - ⟨ctx', body, hctx, hok⟩
          cases hctx
          rw [hup] at hok
          cases hok
        · intro _
          rfl
      · intro _
        exact ⟨_, rfl, str_append_ne _ _ (by decide)⟩
    | httpError t =>
      rw [hred, hup]
      refine ⟨?_, ?_, ?_⟩
      · rintro ⟨ctx', body, hctx, hok⟩
        cases hctx
        rw [hup] at hok
        cases hok
      · constructor
        · rintro - ⟨ctx', body, hctx, hok⟩
          cases hctx
          rw [hup] at hok
          cases hok
        · intro _
          rfl
      · intro _
        exact ⟨_, rfl, str_append_ne _ _ (by decide)⟩
    | ok body =>
      rw [hred, hup]
      refine ⟨?_, ?_, ?_⟩
      · intro _
        exact ⟨buildReply q body, rfl, buildReply_ne_empty q body⟩
      · constructor
        · intro h
          cases h
        · intro h
          exact absurd ⟨ctx, body, rfl, hup⟩ h
      · intro h
        cases h

/-- C2 witness: with an ok upstream body the concrete request is answered
    200 with a present non-empty reply, and 500 never coincides with an ok
    upstream. -/
theorem chat_response_partition_witness :
    ((∃ ctx body, (some (⟨none, none, none⟩ : ChatContext)) = some ctx
        ∧ (fun _ => UpstreamResult.ok ⟨none⟩) (mkInputData "hi" ctx "T") = .ok body) →
      ∃ s, (handleChat ⟨some "hi", some ⟨none, none, none⟩⟩ "T"
          (fun _ => .ok ⟨none⟩)).1 = ⟨200, some s, none⟩ ∧ s ≠ "")
    ∧ ((handleChat ⟨some "hi", some ⟨none, none, none⟩⟩ "T"
          (fun _ => .ok ⟨none⟩)).1.status = 500 ↔
      ¬ ∃ ctx body, (some (⟨none, none, none⟩ : ChatContext)) = some ctx
        ∧ (fun _ => UpstreamResult.ok ⟨none⟩) (mkInputData "hi" ctx "T") = .ok body)
    ∧ ((handleChat ⟨some "hi", some ⟨none, none, none⟩⟩ "T"
          (fun _ => .ok ⟨none⟩)).1.status = 500 →
      ∃ m, (handleChat ⟨some "hi", some ⟨none, none, none⟩⟩ "T"
          (fun _ => .ok ⟨none⟩)).1.message = some m ∧ m ≠ "") :=
  chat_response_partition "hi" (some ⟨none, none, none⟩) "T"
    (fun _ => .ok ⟨none⟩) (by decide)

/-- C4: for every upstream body with a final_report, the reply equals the
    blank-line join of exactly the content-yielding sections in the fixed
    order alerts, recommendations, last-log message, summary; and when no
    section yields content it is the fixed fallback sentence quoting the
    question. -/
theorem chat_reply_section_assembly (q : String) (report : FinalReport) :
    buildReply q ⟨some report⟩ = specReply q report
    ∧ (specSections report = [] →
        buildReply q ⟨some report⟩ = noContentPre ++ q ++ noContentPost) := by
  have h1 : buildReply q ⟨some report⟩ = specReply q report := by
    show (if (sectionParts report).length = 0 then noContentReply q
        else joinSep "\n\n" (sectionParts report)) = specReply q report
    unfold specReply
    rw [sectionParts_eq_specSections]
    simp only [List.length_eq_zero]
  refine ⟨h1, fun h => ?_⟩
  rw [h1]
  unfold specReply
  rw [if_pos h]
  rfl

/-- C4 witness: on a final_report yielding no sections the reply is the
    fallback sentence quoting the concrete question 测试. -/
theorem chat_reply_section_assembly_witness :
    buildReply "测试" ⟨some ⟨none, none, none, none⟩⟩
      = noContentPre ++ "测试" ++ noContentPost :=
  (chat_reply_section_assembly "测试" ⟨none, none, none, none⟩).2 rfl

/-- C6 (modelled from the spec, the gateway being absent from src/):
    whatever order the concurrently dispatched requests complete in (any
    permutation of the request indices), invoke_many returns exactly one
    result per request, positionally in the order of the input requests. -/
theorem invoke_many_preserves_request_order (reqs : List ModelRequest)
    (exec : ModelRequest → ModelInvocationResult) (sched : List Nat)
    (hperm : sched.Perm (List.range reqs.length)) :
    invoke_many reqs exec sched = reqs.map exec
    ∧ (invoke_many reqs exec sched).length = reqs.length := by
  have hmain : invoke_many reqs exec sched = reqs.map exec := by
    unfold invoke_many gatherByCompletion
    rw [map_eq_range_map]
    apply List.map_congr_left
    intro j hj
    have hjs : j ∈ sched := hperm.mem_iff.mpr hj
    rw [lookup_map_self (fun i => exec (reqs.getD i default)) sched j hjs]
  exact ⟨hmain, by rw [hmain, List.length_map]⟩

/-- C6 witness: three concrete requests completing in the staggered order
    2, 0, 1 still come back positionally aligned with the request list. -/
theorem invoke_many_preserves_request_order_witness :
    ([2, 0, 1] : List Nat).Perm
      (List.range ([⟨"cell2fire", "simulate", "p1"⟩, ⟨"climada", "assess", "p2"⟩,
        ⟨"lisflood", "route", "p3"⟩] : List ModelRequest).length)
    ∧ invoke_many
        [⟨"cell2fire", "simulate", "p1"⟩, ⟨"climada", "assess", "p2"⟩,
          ⟨"lisflood", "route", "p3"⟩]
        (fun r => ⟨r.backend_id, r.operation, r.params, .payload r.backend_id, 5, 1⟩)
        [2, 0, 1]
      = ([⟨"cell2fire", "simulate", "p1"⟩, ⟨"climada", "assess", "p2"⟩,
          ⟨"lisflood", "route", "p3"⟩] : List ModelRequest).map
        (fun r => ⟨r.backend_id, r.operation, r.params, .payload r.backend_id, 5, 1⟩) :=
  ⟨by decide,
    (invoke_many_preserves_request_order _ _ _ (by decide)).1⟩

/-- C8: a failed /api/login — unknown username and wrong password alike —
    produces the one identical 401 response, revealing nothing about which
    check failed; a successful login answers 200 with only the id and the
    username, and the whole response is unchanged under any change of the
    stored hash (and of the comparison function) that preserves the
    comparison verdict. -/
theorem login_failure_uniform_and_success_minimal (un pw : String) (u : DbUser)
    (cmp : String → String → Bool) (hun : un ≠ "") (hpw : pw ≠ "") :
    handleLogin (some un) (some pw) none cmp = ⟨401, "登录失败：用户名或密码错误", none⟩
    ∧ (cmp pw u.password_hash = false →
        handleLogin (some un) (some pw) (some u) cmp
          = ⟨401, "登录失败：用户名或密码错误", none⟩)
    ∧ (cmp pw u.password_hash = true →
        handleLogin (some un) (some pw) (some u) cmp
          = ⟨200, "登录成功", some (u.id, u.username)⟩)
    ∧ (∀ (v : DbUser) (cmp' : String → String → Bool),
        u.id = v.id → u.username = v.username →
        cmp pw u.password_hash = cmp' pw v.password_hash →
        handleLogin (some un) (some pw) (some u) cmp
          = handleLogin (some un) (some pw) (some v) cmp') := by
  refine ⟨?_, ?_, ?_, ?_⟩
  · simp [handleLogin, hun, hpw]
  · intro h
    simp [handleLogin, hun, hpw, h]
  · intro h
    simp [handleLogin, hun, hpw, h]
  · intro v cmp' hid hname hcmp
    cases hb : cmp pw u.password_hash with
    | false =>
      have hb' : cmp' pw v.password_hash = false := by
        rw [← hcmp]
        exact hb
      simp [handleLogin, hun, hpw, hb, hb']
    | true =>
      have hb' : cmp' pw v.password_hash = true := by
        rw [← hcmp]
        exact hb
      simp [handleLogin, hun, hpw, hb, hb', hid, hname]

/-- C8 witness: a concrete unknown-username request receives the uniform
    401 response. -/
theorem login_failure_uniform_witness :
    handleLogin (some "alice") (some "pw") none (fun _ _ => false)
      = ⟨401, "登录失败：用户名或密码错误", none⟩ :=
  (login_failure_uniform_and_success_minimal "alice" "pw" ⟨1, "alice", "h"⟩
    (fun _ _ => false) (by decide) (by decide)).1

/-- C9 counterexample: a register request whose username is present but
    the empty string — so not missing — is still answered 400, refuting
    "HTTP 400 exactly when username or password is missing". -/
theorem register_empty_string_counterexample :
    (some "" : Option String) ≠ none
    ∧ (handleRegister (some "") (some "pw") (fun s => s) (fun _ _ => .ok 1)).1.status
        = 400 := by
  decide

/-- C9 (amended): /api/register answers 400 exactly when username or
    password is missing or empty (JS-falsy), and then attempts no database
    write; it answers 409 exactly when the insert fails with the
    unique-violation code 23505; a successful insert is answered 201 with a
    body containing only the new id and the username, never the password or
    its hash. -/
theorem register_status_characterization (username password : Option String)
    (hash : String → String) (insert : String → String → InsertOutcome) :
    ((handleRegister username password hash insert).1.status = 400
      ↔ jsTruthy username = false ∨ jsTruthy password = false)
    ∧ ((handleRegister username password hash insert).1.status = 400
      → (handleRegister username password hash insert).2 = [])
    ∧ ((handleRegister username password hash insert).1.status = 409
      ↔ ∃ u p, username = some u ∧ password = some p ∧ ¬u = "" ∧ ¬p = ""
          ∧ insert u (hash p) = .err (some "23505"))
    ∧ (∀ u p id, username = some u → password = some p → ¬u = "" → ¬p = ""
      → insert u (hash p) = .ok id
      → (handleRegister username password hash insert).1
          = ⟨201, "注册成功", some (id, u)⟩
        ∧ (handleRegister username password hash insert).2 = [(u, hash p)]) := by
  cases username with
  | none => simp [handleRegister, jsTruthy]
  | some u =>
    cases password with
    | none => simp [handleRegister, jsTruthy]
    | some p =>
      by_cases hu : u = ""
      · subst hu
        simp only [handleRegister, jsTruthy]
        refine ⟨by simp, by simp, by simp, ?_⟩
        intro u' p' id h1 h2 h3 h4 h5
        exact absurd h1.symm (by simpa using h3)
      · by_cases hp : p = ""
        · subst hp
          simp only [handleRegister, jsTruthy]
          refine ⟨by simp, by simp [hu], by simp [hu], ?_⟩
          intro u' p' id h1 h2 h3 h4 h5
          exact absurd h2.symm (by simpa using h4)
        · cases hins : insert u (hash p) with
          | ok id =>
            refine ⟨?_, ?_, ?_, ?_⟩
            · simp [handleRegister, jsTruthy, hu, hp, hins]
            · simp [handleRegister, hu, hp, hins]
            · simp only [handleRegister]
              rw [if_neg (by simp [hu, hp])]
              rw [hins]
              constructor
              · intro h
                cases h
              · rintro ⟨u', p', hu', hp', -, -, hins'⟩
                cases hu'
                cases hp'
                rw [hins] at hins'
                cases hins'
            · rintro u' p' id' hu' hp' - - hins'
              cases hu'
              cases hp'
              rw [hins] at hins'
              cases hins'
              simp [handleRegister, hu, hp, hins]
          | err code =>
            by_cases hc : code = some "23505"
            · subst hc
              refine ⟨?_, ?_, ?_, ?_⟩
              · simp [handleRegister, jsTruthy, hu, hp, hins]
              · simp [handleRegister, hu, hp, hins]
              · simp only [handleRegister]
                rw [if_neg (by simp [hu, hp])]
                rw [hins]
                simp only [if_pos rfl]
                exact ⟨fun _ => ⟨u, p, rfl, rfl, hu, hp, hins⟩, fun _ => rfl⟩
              · rintro u' p' id' hu' hp' - - hins'
                cases hu'
                cases hp'
                rw [hins] at hins'
                cases hins'
            · refine ⟨?_, ?_, ?_, ?_⟩
              · simp [handleRegister, jsTruthy, hu, hp, hins, hc]
              · simp [handleRegister, hu, hp, hins, hc]
              · simp only [handleRegister]
                rw [if_neg (by simp [hu, hp])]
                simp only [hins]
                rw [if_neg hc]
                constructor
                · intro h
                  cases h
                · rintro ⟨u', p', hu', hp', -, -, hins'⟩
                  cases hu'
                  cases hp'
                  rw [hins] at hins'
                  cases hins'
                  exact (hc rfl).elim
              · rintro u' p' id' hu' hp' - - hins'
                cases hu'
                cases hp'
                rw [hins] at hins'
                cases hins'

/-- C9 witness: a concrete valid registration is answered 201 with only id
    and username, and one insert of the hashed password was issued. -/
theorem register_status_characterization_witness :
    (handleRegister (some "bob") (some "pw") (fun s => s ++ "#h")
        (fun _ _ => .ok 7)).1 = ⟨201, "注册成功", some (7, "bob")⟩
    ∧ (handleRegister (some "bob") (some "pw") (fun s => s ++ "#h")
        (fun _ _ => .ok 7)).2 = [("bob", "pw" ++ "#h")] :=
  (register_status_characterization (some "bob") (some "pw") (fun s => s ++ "#h")
    (fun _ _ => .ok 7)).2.2.2 "bob" "pw" 7 rfl rfl (by decide) (by decide) rfl

/-- C10: sendMessage leaves the state untouched when the trimmed input is
    empty or a reply is pending; otherwise, whatever the fetch outcome, it
    appends exactly one user message followed by exactly one AI message,
    ends with isTyping false and a cleared input, and the previous messages
    survive unchanged in place (append-only). -/
theorem sendMessage_message_discipline (st : ChatUiState) (outcome : FetchOutcome) :
    ((jsTrim st.userInput = "" ∨ st.isTyping = true) → sendMessage st outcome = st)
    ∧ (jsTrim st.userInput ≠ "" → st.isTyping = false →
        ∃ ai : Msg, ai.sender = "ai"
          ∧ (sendMessage st outcome).messages
              = st.messages ++ [⟨"user", jsTrim st.userInput⟩, ai]
          ∧ (sendMessage st outcome).isTyping = false
          ∧ (sendMessage st outcome).userInput = ""
          ∧ (sendMessage st outcome).messages.take st.messages.length
              = st.messages) := by
  constructor
  · intro h
    unfold sendMessage
    rw [if_pos h]
  · intro hne htyping
    have hcond : ¬(jsTrim st.userInput = "" ∨ st.isTyping = true) := by
      rintro (h | h)
      · exact hne h
      · rw [htyping] at h
        exact Bool.false_ne_true h
    cases outcome with
    | ok r =>
      unfold sendMessage
      rw [if_neg hcond]
      exact ⟨⟨"ai", r⟩, rfl, by simp, rfl, rfl,
        by simp [List.append_assoc, List.take_left]⟩
    | httpErr m =>
      unfold sendMessage
      rw [if_neg hcond]
      exact ⟨⟨"ai", chatUiErrText (jsOr m "与AI服务通信失败")⟩, rfl, by simp, rfl, rfl,
        by simp [List.append_assoc, List.take_left]⟩
    | netErr m =>
      unfold sendMessage
      rw [if_neg hcond]
      exact ⟨⟨"ai", chatUiErrText m⟩, rfl, by simp, rfl, rfl,
        by simp [List.append_assoc, List.take_left]⟩

/-- C10 witness: from a concrete idle state with input 你好, a successful
    call appends the user message and one AI message, clears the input and
    ends not typing. -/
theorem sendMessage_message_discipline_witness :
    ∃ ai : Msg, ai.sender = "ai"
      ∧ (sendMessage ⟨"你好", false, []⟩ (.ok "回复")).messages
          = ([] : List Msg) ++ [⟨"user", jsTrim "你好"⟩, ai]
      ∧ (sendMessage ⟨"你好", false, []⟩ (.ok "回复")).isTyping = false
      ∧ (sendMessage ⟨"你好", false, []⟩ (.ok "回复")).userInput = ""
      ∧ (sendMessage ⟨"你好", false, []⟩ (.ok "回复")).messages.take
          ([] : List Msg).length = ([] : List Msg) :=
  (sendMessage_message_discipline ⟨"你好", false, []⟩ (.ok "回复")).2 (by decide) rfl

end Disaster
